import Mathlib

/-!
Shallow embedding of `src/s3-server/server.py` (mcp-s3-server).

The program is a tool-dispatch layer: a registry mapping 9 tool names to
handler objects, each handler making exactly one boto3 S3 client call and
formatting the result (or a caught exception) as text blocks.

Modelling choices, all traceable to the source:
* JSON-like argument values are `Value` (string or integer, the only types
  declared in the tool schemas); an argument mapping is an association list
  with Python `dict.get` semantics (`Args.get` returns `none` when absent).
* Python exceptions are the inductive `Exc`.  boto3 raises
  `botocore.exceptions.ClientError` for storage-service failures (modelled
  as `Exc.clientError` with an error kind); `RuntimeError`, `KeyError`,
  `OSError` and `ValueError` are the other exception classes the source
  mentions or can raise.  A Python `try/except C: return fallback` block is
  `pyExcept body catches fallback`: it converts a raised exception to the
  fallback exactly when the exception matches the caught class, and
  re-raises (propagates) it otherwise.
* The boto3 client is a response oracle `S3Responses` (fault injection):
  each primitive returns an `Except Exc` result chosen per call arguments.
  Each handler also returns the list of storage calls it issued (`S3Call`),
  so "never reaches the storage layer" is the trace being empty.
* Local file I/O for get-object / put-object is injected the same way
  (`writeFile` / `readFile` parameters), and separately instantiated
  against an explicit key-value backend model (`S3State`, `FS`) for the
  round-trip claim.
-/

/-- A JSON-like argument value as declared in the tool input schemas
(`"type": "string"` or `"type": "integer"`). -/
inductive Value where
  | str (s : String)
  | int (n : Int)
  deriving DecidableEq, Repr

/-- An invocation argument mapping: Python `Dict` with unique keys,
modelled as an association list with first-match lookup. -/
def Args := List (String × Value)

/-- Python `args.get(k)`: the value at key `k`, or `none` when absent. -/
def Args.get : Args → String → Option Value
  | [], _ => none
  | (k2, v) :: rest, k => if k2 = k then some v else Args.get rest k

/-- Python `args.get(k, d)`: lookup with a default for an absent key. -/
def Args.getD (args : Args) (k : String) (d : Value) : Value :=
  (Args.get args k).getD d

/-- Python `f"{x}"` on a value obtained from `args.get`: `None` prints as
`"None"`, a string as itself, an integer in decimal. -/
def pyStr : Option Value → String
  | none => "None"
  | some (.str s) => s
  | some (.int n) => toString n

/-- Error kinds carried by a `botocore.exceptions.ClientError`: the S3
service reports not-found (404), access-denied (403), or some other error
code; all of them are instances of the single `ClientError` class. -/
inductive S3ErrKind where
  | notFound
  | accessDenied
  | otherClient
  deriving DecidableEq, Repr

/-- Python exception classes relevant to `server.py`. -/
inductive Exc where
  /-- `botocore.exceptions.ClientError` — every storage-service failure. -/
  | clientError (kind : S3ErrKind)
  /-- `RuntimeError` — the class three handlers and `list_resources` catch;
  boto3 storage failures are never of this class. -/
  | runtimeError
  /-- `KeyError` — raised by `response[k]` when key `k` is absent. -/
  | keyError (key : String)
  /-- `OSError` — local file open/read/write failure. -/
  | osError
  /-- `ValueError(msg)` — raised by `load_config` and `handle_call_tool`. -/
  | valueError (msg : String)
  deriving DecidableEq, Repr

/-- Does the exception match `except ClientError`? -/
def Exc.isClientError : Exc → Bool
  | .clientError _ => true
  | _ => false

/-- Does the exception match `except RuntimeError`? -/
def Exc.isRuntimeError : Exc → Bool
  | .runtimeError => true
  | _ => false

/-- Python `try: body / except C: return fallback`: a raised exception is
converted to the fallback iff it matches class `C`; otherwise it
propagates. -/
def pyExcept {α : Type} (body : Except Exc α) (catches : Exc → Bool)
    (fallback : α) : Except Exc α :=
  match body with
  | .ok r => .ok r
  | .error e => if catches e then .ok fallback else .error e

/-- `mcp.types.TextContent`: one text block of an invocation result. -/
structure TextContent where
  type : String
  text : String
  deriving DecidableEq, Repr

/-- A sequence of bytes (a local file's or object's body). -/
def ByteSeq := List Nat
deriving instance DecidableEq, Repr for ByteSeq

/-- Keyword arguments built by `ListObjectsHandler.handle` for
`client.list_objects_v2(**kwargs)`.  A field is `none` exactly when the
corresponding key is absent from `kwargs` (the source adds the optional
keys `Prefix`, `Delimiter`, `MaxKeys`, `ContinuationToken`, `StartAfter`
only when the extracted value is not `None`). -/
structure ListObjectsKwargs where
  bucket : Option Value
  pfx : Option Value
  delim : Option Value
  maxKeys : Option Value
  contToken : Option Value
  startAfter : Option Value
  deriving DecidableEq, Repr

/-- Keyword arguments `{Bucket, Key}` plus optional `VersionId`, as built
by the get-object, delete-object and get-object-metadata handlers. -/
structure ObjectKwargs where
  bucket : Option Value
  key : Option Value
  versionId : Option Value
  deriving DecidableEq, Repr

/-- Keyword arguments `{Bucket, Key}` built by `PutObjectHandler.handle`. -/
structure PutObjectKwargs where
  bucket : Option Value
  key : Option Value
  deriving DecidableEq, Repr

/-- Response of `client.list_buckets()`: the `Buckets` list (each entry's
`Name`). -/
structure ListBucketsResponse where
  buckets : List String
  deriving DecidableEq, Repr

/-- One entry of a `list_objects_v2` response's `Contents` list; the
handler reads it with `obj.get('Key', 'null')` / `obj.get('VersionId',
'null')`, so both fields may be absent. -/
structure ObjEntry where
  key : Option String
  versionId : Option String
  deriving DecidableEq, Repr

/-- Response of `client.list_objects_v2`: the `Contents` key is absent
(`none`) when the listing matched zero objects. -/
structure ListObjectsResponse where
  contents : Option (List ObjEntry)
  deriving DecidableEq, Repr

/-- Response of `client.get_object`: the object body
(`response['Body'].read()`). -/
structure GetObjectResponse where
  body : ByteSeq
  deriving DecidableEq, Repr

/-- Response of `client.head_object`: the metadata fields the handler reads
with `obj.get(k, '')`. -/
structure HeadObjectResponse where
  contentType : Option String
  contentLength : Option Int
  lastModified : Option String
  deriving DecidableEq, Repr

/-- One boto3 storage call as issued by a handler (the Storage Client
Adapter boundary). -/
inductive S3Call where
  | listBuckets
  | headBucket (bucket : Option Value)
  | createBucket (bucket : Option Value)
  | deleteBucket (bucket : Option Value)
  | listObjectsV2 (kwargs : ListObjectsKwargs)
  | getObject (kwargs : ObjectKwargs)
  | putObject (kwargs : PutObjectKwargs) (body : ByteSeq)
  | deleteObject (kwargs : ObjectKwargs)
  | headObject (kwargs : ObjectKwargs)
  deriving DecidableEq, Repr

/-- The boto3 client as a response oracle: what each primitive returns for
given call arguments (fault injection for the external storage service). -/
structure S3Responses where
  list_buckets : Except Exc ListBucketsResponse
  head_bucket : Option Value → Except Exc Unit
  create_bucket : Option Value → Except Exc Unit
  delete_bucket : Option Value → Except Exc Unit
  list_objects_v2 : ListObjectsKwargs → Except Exc ListObjectsResponse
  get_object : ObjectKwargs → Except Exc GetObjectResponse
  put_object : PutObjectKwargs → ByteSeq → Except Exc Unit
  delete_object : ObjectKwargs → Except Exc Unit
  head_object : ObjectKwargs → Except Exc HeadObjectResponse

/-- `ListBucketsHandler.handle` (server.py 267-279): `try:` list buckets,
one `"Bucket: {name}"` block per bucket; `except RuntimeError:` return
`"Failed to list buckets"`.  Any other exception propagates. -/
def ListBucketsHandler.handle (client : S3Responses) (_args : Args) :
    Except Exc (List TextContent) × List S3Call :=
  let body : Except Exc (List TextContent) :=
    (client.list_buckets).map fun buckets =>
      buckets.buckets.map fun b => TextContent.mk "text" ("Bucket: " ++ b)
  (pyExcept body Exc.isRuntimeError [TextContent.mk "text" "Failed to list buckets"],
   [S3Call.listBuckets])

/-- `ExistsBucketHandler.handle` (server.py 287-293): head_bucket on the
extracted bucket name; success formats `"Bucket {name} exists"`, `except
ClientError:` formats `"Bucket {name} not exists"`. -/
def ExistsBucketHandler.handle (client : S3Responses) (args : Args) :
    Except Exc (List TextContent) × List S3Call :=
  let bucket_name := Args.get args "bucket_name"
  let body : Except Exc (List TextContent) :=
    (client.head_bucket bucket_name).map fun _ =>
      [TextContent.mk "text" ("Bucket " ++ pyStr bucket_name ++ " exists")]
  (pyExcept body Exc.isClientError
     [TextContent.mk "text" ("Bucket " ++ pyStr bucket_name ++ " not exists")],
   [S3Call.headBucket bucket_name])

/-- `CreateBucketHandler.handle` (server.py 301-307): create_bucket;
success formats `"Bucket {name} created successfully"`; `except
RuntimeError:` returns `"Failed to create bucket"`.  Any other exception
propagates. -/
def CreateBucketHandler.handle (client : S3Responses) (args : Args) :
    Except Exc (List TextContent) × List S3Call :=
  let bucket_name := Args.get args "bucket_name"
  let body : Except Exc (List TextContent) :=
    (client.create_bucket bucket_name).map fun _ =>
      [TextContent.mk "text" ("Bucket " ++ pyStr bucket_name ++ " created successfully")]
  (pyExcept body Exc.isRuntimeError [TextContent.mk "text" "Failed to create bucket"],
   [S3Call.createBucket bucket_name])

/-- `DeleteBucketHandler.handle` (server.py 315-321): delete_bucket;
success formats `"Bucket {name} deleted successfully"`; `except
RuntimeError:` returns `"Failed to delete bucket"`.  Any other exception
propagates. -/
def DeleteBucketHandler.handle (client : S3Responses) (args : Args) :
    Except Exc (List TextContent) × List S3Call :=
  let bucket_name := Args.get args "bucket_name"
  let body : Except Exc (List TextContent) :=
    (client.delete_bucket bucket_name).map fun _ =>
      [TextContent.mk "text" ("Bucket " ++ pyStr bucket_name ++ " deleted successfully")]
  (pyExcept body Exc.isRuntimeError [TextContent.mk "text" "Failed to delete bucket"],
   [S3Call.deleteBucket bucket_name])

/-- `obj.get('Key', 'null')` / `obj.get('VersionId', 'null')`: field value
with default `"null"`. -/
def fmtObjField : Option String → String
  | none => "null"
  | some s => s

/-- The `kwargs` dict built by `ListObjectsHandler.handle` (server.py
331-349): `Bucket` always; each optional key added iff the extracted value
is not `None`; `max_keys` is extracted with default `1000`, hence `MaxKeys`
is always added. -/
def ListObjectsHandler.buildKwargs (args : Args) : ListObjectsKwargs :=
  { bucket := Args.get args "bucket_name"
    pfx := Args.get args "prefix"
    delim := Args.get args "delimiter"
    maxKeys := some (Args.getD args "max_keys" (Value.int 1000))
    contToken := Args.get args "continuation_token"
    startAfter := Args.get args "start_after" }

/-- `ListObjectsHandler.handle` (server.py 329-360): list_objects_v2 with
the built kwargs; formats one block per entry of `response['Contents']`
(a `KeyError` is raised when that key is absent); `except ClientError:`
returns `"Failed to list objects"`.  A `KeyError` is not a `ClientError`,
so it propagates. -/
def ListObjectsHandler.handle (client : S3Responses) (args : Args) :
    Except Exc (List TextContent) × List S3Call :=
  let kwargs := ListObjectsHandler.buildKwargs args
  let body : Except Exc (List TextContent) := do
    let response ← client.list_objects_v2 kwargs
    match response.contents with
    | none => Except.error (Exc.keyError "Contents")
    | some objs =>
        pure (objs.map fun obj =>
          TextContent.mk "text"
            ("Object[key=" ++ fmtObjField obj.key ++ ", version_id="
              ++ fmtObjField obj.versionId ++ "]"))
  (pyExcept body Exc.isClientError [TextContent.mk "text" "Failed to list objects"],
   [S3Call.listObjectsV2 kwargs])

/-- The `kwargs` dict built by the get-object, delete-object and
get-object-metadata handlers: `{Bucket, Key}`, plus `VersionId` iff the
extracted `version_id` is not `None`. -/
def objectKwargs (args : Args) : ObjectKwargs :=
  { bucket := Args.get args "bucket_name"
    key := Args.get args "key"
    versionId := Args.get args "version_id" }

/-- `GetObjectHandler.handle` (server.py 368-383): get_object with the
built kwargs, then `open(path, 'wb')` / write of `response['Body'].read()`
(the injected `writeFile`); success formats
`"Object {key} saved successfully"`; `except ClientError:` returns
`"Failed to get object"`.  A local `OSError` is not a `ClientError`, so it
propagates. -/
def GetObjectHandler.handle (client : S3Responses)
    (writeFile : Option Value → ByteSeq → Except Exc Unit) (args : Args) :
    Except Exc (List TextContent) × List S3Call :=
  let key := Args.get args "key"
  let path := Args.get args "path"
  let kwargs := objectKwargs args
  let body : Except Exc (List TextContent) := do
    let response ← client.get_object kwargs
    let _ ← writeFile path response.body
    pure [TextContent.mk "text" ("Object " ++ pyStr key ++ " saved successfully")]
  (pyExcept body Exc.isClientError [TextContent.mk "text" "Failed to get object"],
   [S3Call.getObject kwargs])

/-- `PutObjectHandler.handle` (server.py 391-402): `open(path, 'rb')` (the
injected `readFile`), then put_object with `Body` the file content; success
formats `"Object {key} saved successfully"`; `except ClientError:` returns
`"Failed to put object"`.  When the local open/read raises, no storage
call is made, and an `OSError` is not a `ClientError`, so it propagates. -/
def PutObjectHandler.handle (client : S3Responses)
    (readFile : Option Value → Except Exc ByteSeq) (args : Args) :
    Except Exc (List TextContent) × List S3Call :=
  let key := Args.get args "key"
  let path := Args.get args "path"
  let kwargs : PutObjectKwargs :=
    { bucket := Args.get args "bucket_name", key := key }
  match readFile path with
  | .error e =>
      (pyExcept (Except.error e) Exc.isClientError
        [TextContent.mk "text" "Failed to put object"], [])
  | .ok content =>
      (pyExcept
        ((client.put_object kwargs content).map fun _ =>
          [TextContent.mk "text" ("Object " ++ pyStr key ++ " saved successfully")])
        Exc.isClientError [TextContent.mk "text" "Failed to put object"],
       [S3Call.putObject kwargs content])

/-- `DeleteObjectHandler.handle` (server.py 410-421): delete_object with
the built kwargs; success formats `"Object {key} deleted successfully"`;
`except ClientError:` returns `"Failed to delete object"`. -/
def DeleteObjectHandler.handle (client : S3Responses) (args : Args) :
    Except Exc (List TextContent) × List S3Call :=
  let key := Args.get args "key"
  let kwargs := objectKwargs args
  let body : Except Exc (List TextContent) :=
    (client.delete_object kwargs).map fun _ =>
      [TextContent.mk "text" ("Object " ++ pyStr key ++ " deleted successfully")]
  (pyExcept body Exc.isClientError [TextContent.mk "text" "Failed to delete object"],
   [S3Call.deleteObject kwargs])

/-- `obj.get('ContentLength', '')` formatted by an f-string: empty string
when absent, decimal otherwise. -/
def fmtOptInt : Option Int → String
  | none => ""
  | some n => toString n

/-- `GetObjectMetadataHandler.handle` (server.py 429-447): head_object with
the built kwargs; success formats the metadata block (note the source's
spacing: a space after `content_type`'s comma, none after
`content_length`'s); `except ClientError:` returns
`"Failed to get object metadata"`. -/
def GetObjectMetadataHandler.handle (client : S3Responses) (args : Args) :
    Except Exc (List TextContent) × List S3Call :=
  let kwargs := objectKwargs args
  let body : Except Exc (List TextContent) :=
    (client.head_object kwargs).map fun obj =>
      [TextContent.mk "text"
        ("Metadata[content_type=" ++ obj.contentType.getD "" ++ ", content_length="
          ++ fmtOptInt obj.contentLength ++ ",last_modified="
          ++ obj.lastModified.getD "" ++ "]")]
  (pyExcept body Exc.isClientError
    [TextContent.mk "text" "Failed to get object metadata"],
   [S3Call.headObject kwargs])

/-- The nine handler classes, as tags for the registry. -/
inductive HandlerTag where
  | listBucketsH
  | createBucketH
  | deleteBucketH
  | existsBucketH
  | listObjectsH
  | getObjectH
  | putObjectH
  | deleteObjectH
  | getObjectMetadataH
  deriving DecidableEq, Repr

/-- The `tool_handlers` dict (server.py 450-460), in source order. -/
def tool_handlers : List (String × HandlerTag) :=
  [("list-buckets", HandlerTag.listBucketsH),
   ("create-bucket", HandlerTag.createBucketH),
   ("delete-bucket", HandlerTag.deleteBucketH),
   ("exists-bucket", HandlerTag.existsBucketH),
   ("list-objects", HandlerTag.listObjectsH),
   ("get-object", HandlerTag.getObjectH),
   ("put-object", HandlerTag.putObjectH),
   ("delete-object", HandlerTag.deleteObjectH),
   ("get-object-metadata", HandlerTag.getObjectMetadataH)]

/-- `name in tool_handlers` / `tool_handlers[name]`: dict lookup. -/
def lookupHandler (name : String) : Option HandlerTag :=
  (tool_handlers.find? fun p => p.1 = name).map Prod.snd

/-- Invoke the handler instance a tag stands for (the method-dispatch step
of `tool_handlers[name].handle(name, args)`). -/
def runHandler (tag : HandlerTag) (client : S3Responses)
    (readFile : Option Value → Except Exc ByteSeq)
    (writeFile : Option Value → ByteSeq → Except Exc Unit)
    (args : Args) : Except Exc (List TextContent) × List S3Call :=
  match tag with
  | .listBucketsH => ListBucketsHandler.handle client args
  | .createBucketH => CreateBucketHandler.handle client args
  | .deleteBucketH => DeleteBucketHandler.handle client args
  | .existsBucketH => ExistsBucketHandler.handle client args
  | .listObjectsH => ListObjectsHandler.handle client args
  | .getObjectH => GetObjectHandler.handle client writeFile args
  | .putObjectH => PutObjectHandler.handle client readFile args
  | .deleteObjectH => DeleteObjectHandler.handle client args
  | .getObjectMetadataH => GetObjectMetadataHandler.handle client args

/-- `handle_call_tool` (server.py 463-468): if the name is registered,
invoke that handler and return its result unchanged; otherwise raise
`ValueError(f"Unknown tool: {name}")` without touching the storage layer. -/
def handle_call_tool (client : S3Responses)
    (readFile : Option Value → Except Exc ByteSeq)
    (writeFile : Option Value → ByteSeq → Except Exc Unit)
    (name : String) (args : Args) :
    Except Exc (List TextContent) × List S3Call :=
  match lookupHandler name with
  | some tag => runHandler tag client readFile writeFile args
  | none => (Except.error (Exc.valueError ("Unknown tool: " ++ name)), [])

/-- `mcp.types.Resource` as constructed by `list_resources`. -/
structure Resource where
  uri : String
  name : String
  mimeType : String
  description : String
  deriving DecidableEq, Repr

/-- `list_resources` (server.py 49-71): `try:` list buckets and build one
resource per bucket with uri `s3://{name}`; `except RuntimeError:` return
`[]`.  Any other exception propagates. -/
def list_resources (client : S3Responses) : Except Exc (List Resource) :=
  pyExcept
    ((client.list_buckets).map fun buckets =>
      buckets.buckets.map fun b =>
        Resource.mk ("s3://" ++ b) ("Bucket: " ++ b) "text/plain"
          ("Data in bucket: " ++ b))
    Exc.isRuntimeError []

/-- The process environment variables read by `load_config`. -/
structure Env where
  endpointVar : Option String
  accessKeyIdVar : Option String
  accessKeySecretVar : Option String
  regionNameVar : Option String
  deriving DecidableEq, Repr

/-- The config dict built by `load_config` (the source spells the third
dict key `"access_key-secret"`, with a hyphen). -/
structure Config where
  endpoint : Option String
  access_key_id : Option String
  access_key_secret : Option String
  region_name : String
  deriving DecidableEq, Repr

/-- Python truthiness of an `os.getenv` result: `None` and `""` are falsy,
every other string truthy. -/
def pyTruthy : Option String → Bool
  | none => false
  | some s => s != ""

/-- `load_config` (server.py 18-34): read the four environment variables
(`REGION_NAME` with default `"us-east-1"`); raise
`ValueError("Missing required configuration")` when
`not all([endpoint, access_key_id, access_key-secret])`. -/
def load_config (env : Env) : Except Exc Config :=
  let config : Config :=
    { endpoint := env.endpointVar
      access_key_id := env.accessKeyIdVar
      access_key_secret := env.accessKeySecretVar
      region_name := (env.regionNameVar).getD "us-east-1" }
  if !(pyTruthy config.endpoint && pyTruthy config.access_key_id
        && pyTruthy config.access_key_secret) then
    Except.error (Exc.valueError "Missing required configuration")
  else
    Except.ok config

/-- The parameters `init_client` passes to `boto3.client('s3', ...)`. -/
structure BotoClientConfig where
  endpoint_url : Option String
  aws_access_key_id : Option String
  aws_secret_access_key : Option String
  region_name : Option String
  deriving DecidableEq, Repr

/-- `init_client` (server.py 37-46): load the config (propagating its
`ValueError`), then create the single shared client from it. -/
def init_client (env : Env) : Except Exc BotoClientConfig :=
  (load_config env).map fun config =>
    { endpoint_url := config.endpoint
      aws_access_key_id := config.access_key_id
      aws_secret_access_key := config.access_key_secret
      region_name := some config.region_name }

/-- Key-value model of the storage backend (claim C8's stipulated model):
the object body stored per `(Bucket, Key)` pair, exactly the values the
handlers pass as keyword arguments. -/
def S3State := Option Value × Option Value → Option ByteSeq

/-- Local filesystem model: content per `open()` path argument. -/
def FS := Option Value → Option ByteSeq

/-- Backend `put_object`: point update of the store at `(Bucket, Key)`. -/
def s3put (st : S3State) (bucket key : Option Value) (body : ByteSeq) : S3State :=
  fun p => if p = (bucket, key) then some body else st p

/-- Backend `get_object`: lookup of the store at `(Bucket, Key)`. -/
def s3get (st : S3State) (bucket key : Option Value) : Option ByteSeq :=
  st (bucket, key)

/-- `PutObjectHandler.handle` instantiated at the key-value backend model:
`open(path, 'rb')` reads the local file (raising `OSError` when absent,
which `except ClientError` does not catch), then `put_object` stores the
content at `(Bucket, Key)` and the success text is returned. -/
def PutObjectHandler.handleKV (st : S3State) (fs : FS) (args : Args) :
    Except Exc (List TextContent) × S3State :=
  let bucket_name := Args.get args "bucket_name"
  let key := Args.get args "key"
  let path := Args.get args "path"
  match fs path with
  | none => (Except.error Exc.osError, st)
  | some content =>
      (Except.ok [TextContent.mk "text" ("Object " ++ pyStr key ++ " saved successfully")],
       s3put st bucket_name key content)

/-- `GetObjectHandler.handle` instantiated at the key-value backend model:
`get_object` looks up `(Bucket, Key)` (a missing object is a `ClientError`,
caught and formatted as `"Failed to get object"`); on success the body is
written to the local path and the success text is returned. -/
def GetObjectHandler.handleKV (st : S3State) (fs : FS) (args : Args) :
    Except Exc (List TextContent) × FS :=
  let bucket_name := Args.get args "bucket_name"
  let key := Args.get args "key"
  let path := Args.get args "path"
  match s3get st bucket_name key with
  | none => (Except.ok [TextContent.mk "text" "Failed to get object"], fs)
  | some content =>
      (Except.ok [TextContent.mk "text" ("Object " ++ pyStr key ++ " saved successfully")],
       fun p => if p = path then some content else fs p)

/-- The backend state after `n` repetitions of the same put-object
invocation. -/
def putObjectIter (fs : FS) (args : Args) : Nat → S3State → S3State
  | 0, st => st
  | n + 1, st => (PutObjectHandler.handleKV (putObjectIter fs args n st) fs args).2

/-- A response oracle on which every storage primitive succeeds with an
empty/default response. -/
def stubClient : S3Responses where
  list_buckets := Except.ok { buckets := [] }
  head_bucket := fun _ => Except.ok ()
  create_bucket := fun _ => Except.ok ()
  delete_bucket := fun _ => Except.ok ()
  list_objects_v2 := fun _ => Except.ok { contents := some [] }
  get_object := fun _ => Except.ok { body := [] }
  put_object := fun _ _ => Except.ok ()
  delete_object := fun _ => Except.ok ()
  head_object := fun _ =>
    Except.ok { contentType := none, contentLength := none, lastModified := none }

/-- A storage-service failure: some `botocore.exceptions.ClientError`. -/
def cErr : Exc := Exc.clientError S3ErrKind.otherClient

/-- Oracle on which the bucket-level primitives raise `ClientError`. -/
def cErrClient : S3Responses :=
  { stubClient with
    list_buckets := Except.error cErr
    create_bucket := fun _ => Except.error cErr
    delete_bucket := fun _ => Except.error cErr }

/-- Oracle on which `list_buckets` raises `RuntimeError`. -/
def rtErrClient : S3Responses :=
  { stubClient with list_buckets := Except.error Exc.runtimeError }

/-- Oracle with a single bucket `b1`. -/
def oneBucketClient : S3Responses :=
  { stubClient with list_buckets := Except.ok { buckets := ["b1"] } }

/-- Oracle whose `list_objects_v2` succeeds with no `Contents` key (the
shape boto3 returns for a bucket containing zero objects). -/
def emptyBucketClient : S3Responses :=
  { stubClient with list_objects_v2 := fun _ => Except.ok { contents := none } }

/-- Oracle whose `get_object` succeeds with body `[1, 2, 3]`. -/
def okBodyClient : S3Responses :=
  { stubClient with get_object := fun _ => Except.ok { body := [1, 2, 3] } }

/-- Injected local read that always succeeds with an empty file. -/
def stubRead : Option Value → Except Exc ByteSeq := fun _ => Except.ok []

/-- Injected local write that always succeeds. -/
def stubWrite : Option Value → ByteSeq → Except Exc Unit := fun _ _ => Except.ok ()

/-- Injected local read that raises `OSError` (e.g. file not found). -/
def failRead : Option Value → Except Exc ByteSeq := fun _ => Except.error Exc.osError

/-- Injected local write that raises `OSError` (e.g. unwritable path). -/
def failWrite : Option Value → ByteSeq → Except Exc Unit :=
  fun _ _ => Except.error Exc.osError

/-- Oracle whose `head_bucket` raises `ClientError` with code 403
(access denied). -/
def headDeniedClient : S3Responses :=
  { stubClient with
    head_bucket := fun _ => Except.error (Exc.clientError S3ErrKind.accessDenied) }

/-- Environment with `ENDPOINT` set to the empty string and the two keys
set non-empty. -/
def envEmptyEndpoint : Env :=
  { endpointVar := some ""
    accessKeyIdVar := some "key"
    accessKeySecretVar := some "secret"
    regionNameVar := none }

/-- Environment with all three required variables set non-empty and
`REGION_NAME` unset. -/
def envFull : Env :=
  { endpointVar := some "http://e"
    accessKeyIdVar := some "id"
    accessKeySecretVar := some "sec"
    regionNameVar := none }

/-- The client parameters `init_client` builds from `envFull`. -/
def cfgFull : BotoClientConfig :=
  { endpoint_url := some "http://e"
    aws_access_key_id := some "id"
    aws_secret_access_key := some "sec"
    region_name := some "us-east-1" }

/-- The empty storage backend. -/
def stEmpty : S3State := fun _ => none

/-- The bytes `XYZ`. -/
def bXYZ : ByteSeq := [88, 89, 90]

/-- Local filesystem whose file `/tmp/in` contains `XYZ`. -/
def fsIn : FS :=
  fun p => if p = some (Value.str "/tmp/in") then some bXYZ else none

/-- C1: for every invocation, if the tool name is registered,
`handle_call_tool` invokes exactly that name's handler and returns its
result (and storage-call trace) unchanged; if it is not registered, it
fails with `ValueError("Unknown tool: ...")` and issues no storage call;
and the lookup succeeds exactly for the 9 names of `tool_handlers`. -/
theorem dispatch_correct (client : S3Responses)
    (readFile : Option Value → Except Exc ByteSeq)
    (writeFile : Option Value → ByteSeq → Except Exc Unit)
    (name : String) (args : Args) :
    (∀ tag : HandlerTag, lookupHandler name = some tag →
        handle_call_tool client readFile writeFile name args
          = runHandler tag client readFile writeFile args)
    ∧ (lookupHandler name = none →
        handle_call_tool client readFile writeFile name args
          = (Except.error (Exc.valueError ("Unknown tool: " ++ name)), []))
    ∧ ((lookupHandler name).isSome ↔ name ∈ tool_handlers.map Prod.fst) := by
  refine ⟨?_, ?_, ?_⟩
  · intro tag h
    simp [handle_call_tool, h]
  · intro h
    simp [handle_call_tool, h]
  · simp [lookupHandler, List.find?_isSome, List.mem_map]

/-- C1 witness: `exists-bucket` is dispatched to its handler; the
unregistered name `no-such-tool` yields the `ValueError` and an empty
storage trace. -/
theorem dispatch_correct_witness :
    handle_call_tool stubClient stubRead stubWrite "exists-bucket" []
      = runHandler HandlerTag.existsBucketH stubClient stubRead stubWrite []
    ∧ handle_call_tool stubClient stubRead stubWrite "no-such-tool" []
      = (Except.error (Exc.valueError ("Unknown tool: " ++ "no-such-tool")), []) :=
  ⟨(dispatch_correct stubClient stubRead stubWrite "exists-bucket" []).1
      HandlerTag.existsBucketH (by rfl),
   (dispatch_correct stubClient stubRead stubWrite "no-such-tool" []).2.1 (by rfl)⟩

/-- C2 (code-bug evidence): a `ClientError` — the class of every boto3
storage failure — raised during list-buckets, create-bucket or
delete-bucket propagates out of the handler instead of being converted to
the fixed failure text, because those handlers' `except` clause catches
`RuntimeError` only. -/
theorem runtime_except_storage_failure_propagates :
    (ListBucketsHandler.handle cErrClient []).1 = Except.error cErr
    ∧ (CreateBucketHandler.handle cErrClient [("bucket_name", Value.str "b")]).1
        = Except.error cErr
    ∧ (DeleteBucketHandler.handle cErrClient [("bucket_name", Value.str "b")]).1
        = Except.error cErr
    ∧ (Except.error cErr : Except Exc (List TextContent))
        ≠ Except.ok [TextContent.mk "text" "Failed to list buckets"] := by
  refine ⟨rfl, rfl, rfl, ?_⟩
  intro h
  exact Except.noConfusion h

/-- C3 counterexample: the handlers do not detect missing required
arguments — exists-bucket invoked with no arguments still issues the
bucket-existence probe (with `Bucket=None`), and get-object invoked
without its required `path` still issues the `get_object` call. -/
theorem missing_required_arg_reaches_storage :
    (ExistsBucketHandler.handle stubClient []).2 = [S3Call.headBucket none]
    ∧ (ExistsBucketHandler.handle stubClient []).1
        = Except.ok [TextContent.mk "text" "Bucket None exists"]
    ∧ (GetObjectHandler.handle stubClient stubWrite
        [("bucket_name", Value.str "b"), ("key", Value.str "k")]).2
        = [S3Call.getObject
            { bucket := some (Value.str "b"), key := some (Value.str "k"),
              versionId := none }] :=
  ⟨rfl, rfl, rfl⟩

/-- C3 amended: handlers perform no presence validation of required
arguments; an invocation whose mapping omits `bucket_name` (exists-bucket)
or `path` (get-object) still issues the single storage call, with the
missing argument read as `None`. -/
theorem no_presence_validation (client : S3Responses)
    (writeFile : Option Value → ByteSeq → Except Exc Unit) (args : Args)
    (hb : Args.get args "bucket_name" = none)
    (hp : Args.get args "path" = none) :
    (ExistsBucketHandler.handle client args).2 = [S3Call.headBucket none]
    ∧ (GetObjectHandler.handle client writeFile args).2
        = [S3Call.getObject
            { bucket := none, key := Args.get args "key",
              versionId := Args.get args "version_id" }] := by
  constructor
  · simp [ExistsBucketHandler.handle, hb]
  · simp [GetObjectHandler.handle, objectKwargs, hb, hp]

/-- C3 amended witness: the empty argument mapping omits every required
argument, and both storage calls are still issued. -/
theorem no_presence_validation_witness :
    (ExistsBucketHandler.handle stubClient []).2 = [S3Call.headBucket none]
    ∧ (GetObjectHandler.handle stubClient stubWrite []).2
        = [S3Call.getObject
            { bucket := none, key := Args.get [] "key",
              versionId := Args.get [] "version_id" }] :=
  no_presence_validation stubClient stubWrite [] (by rfl) (by rfl)

/-- C10: a list-objects invocation whose `list_objects_v2` call succeeds
with a response carrying no `Contents` key (a bucket with zero objects)
raises an uncaught `KeyError("Contents")` instead of returning zero blocks
or the failure text. -/
theorem list_objects_missing_contents_keyerror :
    (ListObjectsHandler.handle emptyBucketClient [("bucket_name", Value.str "b")]).1
      = Except.error (Exc.keyError "Contents") := rfl

/-- C4: for every exists-bucket invocation carrying a `bucket_name`, a
successful head-bucket probe yields the single block
`"Bucket {name} exists"`, and a probe raising any `ClientError` — whatever
its error kind, not-found and access-denied alike — yields the single
block `"Bucket {name} not exists"`; the causes are not distinguished. -/
theorem exists_bucket_probe_behavior (client : S3Responses) (args : Args)
    (b : Value) (hb : Args.get args "bucket_name" = some b) :
    (client.head_bucket (some b) = Except.ok () →
        ExistsBucketHandler.handle client args
          = (Except.ok
              [TextContent.mk "text" ("Bucket " ++ pyStr (some b) ++ " exists")],
             [S3Call.headBucket (some b)]))
    ∧ (∀ kind : S3ErrKind,
        client.head_bucket (some b) = Except.error (Exc.clientError kind) →
        ExistsBucketHandler.handle client args
          = (Except.ok
              [TextContent.mk "text" ("Bucket " ++ pyStr (some b) ++ " not exists")],
             [S3Call.headBucket (some b)])) := by
  constructor
  · intro h
    simp [ExistsBucketHandler.handle, hb, h, pyExcept, Except.map]
  · intro kind h
    simp [ExistsBucketHandler.handle, hb, h, pyExcept, Except.map, Exc.isClientError]

/-- C4 witness: against a reachable bucket the probe succeeds and the
result is the "exists" block; against an access-denied bucket the result
is the "not exists" block. -/
theorem exists_bucket_probe_behavior_witness :
    ExistsBucketHandler.handle stubClient [("bucket_name", Value.str "b1")]
      = (Except.ok
          [TextContent.mk "text"
            ("Bucket " ++ pyStr (some (Value.str "b1")) ++ " exists")],
         [S3Call.headBucket (some (Value.str "b1"))])
    ∧ ExistsBucketHandler.handle headDeniedClient [("bucket_name", Value.str "b1")]
      = (Except.ok
          [TextContent.mk "text"
            ("Bucket " ++ pyStr (some (Value.str "b1")) ++ " not exists")],
         [S3Call.headBucket (some (Value.str "b1"))]) :=
  ⟨(exists_bucket_probe_behavior stubClient [("bucket_name", Value.str "b1")]
      (Value.str "b1") (by rfl)).1 (by rfl),
   (exists_bucket_probe_behavior headDeniedClient [("bucket_name", Value.str "b1")]
      (Value.str "b1") (by rfl)).2 S3ErrKind.accessDenied (by rfl)⟩

/-- C5: every list-objects invocation issues exactly one adapter call whose
kwargs contain the bucket name; each of the four pass-through optionals
appears in the call iff it is present in the argument mapping (equality
with `Args.get`), and `MaxKeys` is `1000` when `max_keys` is omitted (and
the given value when present). -/
theorem list_objects_kwargs_passthrough (client : S3Responses) (args : Args) :
    (ListObjectsHandler.handle client args).2
      = [S3Call.listObjectsV2 (ListObjectsHandler.buildKwargs args)]
    ∧ (ListObjectsHandler.buildKwargs args).bucket = Args.get args "bucket_name"
    ∧ (ListObjectsHandler.buildKwargs args).pfx = Args.get args "prefix"
    ∧ (ListObjectsHandler.buildKwargs args).delim = Args.get args "delimiter"
    ∧ (ListObjectsHandler.buildKwargs args).contToken
        = Args.get args "continuation_token"
    ∧ (ListObjectsHandler.buildKwargs args).startAfter = Args.get args "start_after"
    ∧ (Args.get args "max_keys" = none →
        (ListObjectsHandler.buildKwargs args).maxKeys = some (Value.int 1000))
    ∧ (∀ v : Value, Args.get args "max_keys" = some v →
        (ListObjectsHandler.buildKwargs args).maxKeys = some v) := by
  refine ⟨rfl, rfl, rfl, rfl, rfl, rfl, ?_, ?_⟩
  · intro h
    simp [ListObjectsHandler.buildKwargs, Args.getD, h]
  · intro v h
    simp [ListObjectsHandler.buildKwargs, Args.getD, h]

/-- C5 witness: an invocation carrying only `bucket_name` issues one call
whose kwargs omit every pass-through optional and carry `MaxKeys=1000`. -/
theorem list_objects_kwargs_passthrough_witness :
    (ListObjectsHandler.handle stubClient [("bucket_name", Value.str "b")]).2
      = [S3Call.listObjectsV2
          (ListObjectsHandler.buildKwargs [("bucket_name", Value.str "b")])]
    ∧ (ListObjectsHandler.buildKwargs [("bucket_name", Value.str "b")]).maxKeys
      = some (Value.int 1000) :=
  ⟨(list_objects_kwargs_passthrough stubClient [("bucket_name", Value.str "b")]).1,
   (list_objects_kwargs_passthrough stubClient
      [("bucket_name", Value.str "b")]).2.2.2.2.2.2.1 (by rfl)⟩

/-- C6 (code-bug evidence): when the bucket listing succeeds the
resource-listing interface returns one `s3://{name}` resource per bucket,
and a `RuntimeError` is swallowed into the empty list — but a
`ClientError`, the class of every boto3 listing failure, propagates out of
`list_resources` instead of yielding the empty list, because its `except`
clause catches `RuntimeError` only. -/
theorem resource_listing_failure_behavior :
    list_resources oneBucketClient
      = Except.ok [Resource.mk "s3://b1" "Bucket: b1" "text/plain" "Data in bucket: b1"]
    ∧ list_resources rtErrClient = Except.ok []
    ∧ list_resources cErrClient = Except.error cErr
    ∧ (Except.error cErr : Except Exc (List Resource)) ≠ Except.ok [] := by
  refine ⟨rfl, rfl, rfl, ?_⟩
  intro h
  exact Except.noConfusion h

/-- Python truthiness of an `os.getenv` result is false exactly for an
unset variable or one set to the empty string. -/
theorem pyTruthy_eq_false (o : Option String) :
    pyTruthy o = false ↔ (o = none ∨ o = some "") := by
  cases o with
  | none => simp [pyTruthy]
  | some s => simp [pyTruthy]

/-- C7 counterexample: with `ENDPOINT` set to the empty string (so not
unset) and both keys set non-empty, `load_config` still raises
`ValueError("Missing required configuration")` — the "only if unset"
direction of the claim fails, because the source tests Python truthiness
(`not all([...])`), not presence. -/
theorem load_config_empty_string_cex :
    envEmptyEndpoint.endpointVar ≠ none
    ∧ envEmptyEndpoint.accessKeyIdVar ≠ none
    ∧ envEmptyEndpoint.accessKeySecretVar ≠ none
    ∧ load_config envEmptyEndpoint
      = Except.error (Exc.valueError "Missing required configuration") := by
  refine ⟨?_, ?_, ?_, rfl⟩ <;> simp [envEmptyEndpoint]

/-- C7 amended: `load_config` raises the fatal
`ValueError("Missing required configuration")` if and only if at least one
of the endpoint, access key id, or access key secret variables is unset or
set to the empty string; and whenever `init_client` succeeds, the single
client it creates carries exactly those environment values, with the
region name defaulting to `"us-east-1"` when unset. -/
theorem load_config_amended (env : Env) :
    (load_config env = Except.error (Exc.valueError "Missing required configuration")
      ↔ (env.endpointVar = none ∨ env.endpointVar = some ""
          ∨ env.accessKeyIdVar = none ∨ env.accessKeyIdVar = some ""
          ∨ env.accessKeySecretVar = none ∨ env.accessKeySecretVar = some ""))
    ∧ (∀ c : BotoClientConfig, init_client env = Except.ok c →
        c.endpoint_url = env.endpointVar
        ∧ c.aws_access_key_id = env.accessKeyIdVar
        ∧ c.aws_secret_access_key = env.accessKeySecretVar
        ∧ c.region_name = some ((env.regionNameVar).getD "us-east-1")) := by
  constructor
  · rw [show (env.endpointVar = none ∨ env.endpointVar = some ""
          ∨ env.accessKeyIdVar = none ∨ env.accessKeyIdVar = some ""
          ∨ env.accessKeySecretVar = none ∨ env.accessKeySecretVar = some "")
        = (pyTruthy env.endpointVar = false ∨ pyTruthy env.accessKeyIdVar = false
            ∨ pyTruthy env.accessKeySecretVar = false) from by
      simp [pyTruthy_eq_false, or_assoc]]
    unfold load_config
    rcases h1 : pyTruthy env.endpointVar <;>
      rcases h2 : pyTruthy env.accessKeyIdVar <;>
        rcases h3 : pyTruthy env.accessKeySecretVar <;>
          simp [h1, h2, h3]
  · intro c hc
    unfold init_client load_config at hc
    rcases h1 : pyTruthy env.endpointVar <;>
      rcases h2 : pyTruthy env.accessKeyIdVar <;>
        rcases h3 : pyTruthy env.accessKeySecretVar <;>
          simp [h1, h2, h3, Except.map] at hc
    simp [← hc]

/-- C7 amended witness: an environment with all three variables set
non-empty and `REGION_NAME` unset builds the client from exactly those
values with region `"us-east-1"`. -/
theorem load_config_amended_witness :
    cfgFull.endpoint_url = envFull.endpointVar
    ∧ cfgFull.aws_access_key_id = envFull.accessKeyIdVar
    ∧ cfgFull.aws_secret_access_key = envFull.accessKeySecretVar
    ∧ cfgFull.region_name = some ((envFull.regionNameVar).getD "us-east-1") :=
  (load_config_amended envFull).2 cfgFull (by rfl)

/-- C8: over the key-value backend model, a successful put-object of a
local file containing `B` to `(b, k)` stores exactly `B`; a following
successful get-object of `(b, k)` writes exactly `B` to the output path;
and repeating the same put-object any positive number of times leaves the
stored body equal to `B`. -/
theorem put_get_round_trip (st : S3State) (fs : FS) (B : ByteSeq)
    (b k inP outP : Value) (hin : fs (some inP) = some B) :
    (PutObjectHandler.handleKV st fs
        [("bucket_name", b), ("key", k), ("path", inP)]).1
      = Except.ok
          [TextContent.mk "text" ("Object " ++ pyStr (some k) ++ " saved successfully")]
    ∧ s3get (PutObjectHandler.handleKV st fs
        [("bucket_name", b), ("key", k), ("path", inP)]).2 (some b) (some k)
      = some B
    ∧ (GetObjectHandler.handleKV
        (PutObjectHandler.handleKV st fs
          [("bucket_name", b), ("key", k), ("path", inP)]).2
        fs [("bucket_name", b), ("key", k), ("path", outP)]).1
      = Except.ok
          [TextContent.mk "text" ("Object " ++ pyStr (some k) ++ " saved successfully")]
    ∧ (GetObjectHandler.handleKV
        (PutObjectHandler.handleKV st fs
          [("bucket_name", b), ("key", k), ("path", inP)]).2
        fs [("bucket_name", b), ("key", k), ("path", outP)]).2 (some outP)
      = some B
    ∧ (∀ n : Nat,
        s3get (putObjectIter fs [("bucket_name", b), ("key", k), ("path", inP)]
            (n + 1) st) (some b) (some k)
          = some B) := by
  have hbn : Args.get [("bucket_name", b), ("key", k), ("path", inP)] "bucket_name"
      = some b := rfl
  have hk : Args.get [("bucket_name", b), ("key", k), ("path", inP)] "key"
      = some k := rfl
  have hpi : Args.get [("bucket_name", b), ("key", k), ("path", inP)] "path"
      = some inP := rfl
  have hpo : Args.get [("bucket_name", b), ("key", k), ("path", outP)] "path"
      = some outP := rfl
  have hbn2 : Args.get [("bucket_name", b), ("key", k), ("path", outP)] "bucket_name"
      = some b := rfl
  have hk2 : Args.get [("bucket_name", b), ("key", k), ("path", outP)] "key"
      = some k := rfl
  have hput : ∀ st2 : S3State,
      PutObjectHandler.handleKV st2 fs [("bucket_name", b), ("key", k), ("path", inP)]
        = (Except.ok
            [TextContent.mk "text" ("Object " ++ pyStr (some k) ++ " saved successfully")],
           s3put st2 (some b) (some k) B) := by
    intro st2
    simp [PutObjectHandler.handleKV, hbn, hk, hpi, hin]
  have hgetB : ∀ st2 : S3State,
      s3get (s3put st2 (some b) (some k) B) (some b) (some k) = some B := by
    intro st2
    simp [s3get, s3put]
  refine ⟨?_, ?_, ?_, ?_, ?_⟩
  · rw [hput]
  · rw [hput]
    exact hgetB st
  · rw [hput]
    simp [GetObjectHandler.handleKV, hbn2, hk2, hpo, hgetB st]
  · rw [hput]
    simp [GetObjectHandler.handleKV, hbn2, hk2, hpo, hgetB st]
  · intro n
    show s3get (PutObjectHandler.handleKV
        (putObjectIter fs [("bucket_name", b), ("key", k), ("path", inP)] n st)
        fs [("bucket_name", b), ("key", k), ("path", inP)]).2 (some b) (some k)
      = some B
    rw [hput]
    exact hgetB _

/-- C8 witness: putting `/tmp/in` containing `XYZ` to `(b, k)` three times
and getting it back to `/tmp/out` leaves both the stored body and the
output file equal to `XYZ`. -/
theorem put_get_round_trip_witness :
    fsIn (some (Value.str "/tmp/in")) = some bXYZ
    ∧ s3get (putObjectIter fsIn
        [("bucket_name", Value.str "b"), ("key", Value.str "k"),
         ("path", Value.str "/tmp/in")] (2 + 1) stEmpty)
        (some (Value.str "b")) (some (Value.str "k"))
      = some bXYZ
    ∧ (GetObjectHandler.handleKV
        (PutObjectHandler.handleKV stEmpty fsIn
          [("bucket_name", Value.str "b"), ("key", Value.str "k"),
           ("path", Value.str "/tmp/in")]).2
        fsIn
        [("bucket_name", Value.str "b"), ("key", Value.str "k"),
         ("path", Value.str "/tmp/out")]).2 (some (Value.str "/tmp/out"))
      = some bXYZ :=
  ⟨rfl,
   (put_get_round_trip stEmpty fsIn bXYZ (Value.str "b") (Value.str "k")
      (Value.str "/tmp/in") (Value.str "/tmp/out") (by rfl)).2.2.2.2 2,
   (put_get_round_trip stEmpty fsIn bXYZ (Value.str "b") (Value.str "k")
      (Value.str "/tmp/in") (Value.str "/tmp/out") (by rfl)).2.2.2.1⟩

/-- C9 counterexample: a local write failure (`OSError`) during get-object
with a successful storage call, and a local read failure during
put-object, propagate out of the handler — they are not converted to the
`"Failed to get object"` / `"Failed to put object"` text block, unlike
storage failures. -/
theorem local_io_error_propagates_cex :
    (GetObjectHandler.handle okBodyClient failWrite
        [("bucket_name", Value.str "b"), ("key", Value.str "k"),
         ("path", Value.str "/bad")]).1
      = Except.error Exc.osError
    ∧ (PutObjectHandler.handle stubClient failRead
        [("bucket_name", Value.str "b"), ("key", Value.str "k"),
         ("path", Value.str "/bad")]).1
      = Except.error Exc.osError
    ∧ (Except.error Exc.osError : Except Exc (List TextContent))
        ≠ Except.ok [TextContent.mk "text" "Failed to get object"]
    ∧ (Except.error Exc.osError : Except Exc (List TextContent))
        ≠ Except.ok [TextContent.mk "text" "Failed to put object"] := by
  refine ⟨rfl, rfl, ?_, ?_⟩ <;> intro h <;> exact Except.noConfusion h

/-- C9 amended: the two failure channels are distinguished: an `OSError`
from the local file operation propagates uncaught out of the get-object
and put-object handlers (for put-object, before any storage call), while a
storage `ClientError` is caught and converted to the fixed failure text
block. -/
theorem local_io_vs_storage_failure (client : S3Responses)
    (readFile : Option Value → Except Exc ByteSeq)
    (writeFile : Option Value → ByteSeq → Except Exc Unit) (args : Args) :
    (∀ resp : GetObjectResponse,
        client.get_object (objectKwargs args) = Except.ok resp →
        writeFile (Args.get args "path") resp.body = Except.error Exc.osError →
        (GetObjectHandler.handle client writeFile args).1 = Except.error Exc.osError)
    ∧ (readFile (Args.get args "path") = Except.error Exc.osError →
        (PutObjectHandler.handle client readFile args).1 = Except.error Exc.osError
        ∧ (PutObjectHandler.handle client readFile args).2 = [])
    ∧ (∀ kind : S3ErrKind,
        client.get_object (objectKwargs args) = Except.error (Exc.clientError kind) →
        (GetObjectHandler.handle client writeFile args).1
          = Except.ok [TextContent.mk "text" "Failed to get object"])
    ∧ (∀ (kind : S3ErrKind) (content : ByteSeq),
        readFile (Args.get args "path") = Except.ok content →
        client.put_object
            { bucket := Args.get args "bucket_name", key := Args.get args "key" }
            content
          = Except.error (Exc.clientError kind) →
        (PutObjectHandler.handle client readFile args).1
          = Except.ok [TextContent.mk "text" "Failed to put object"]) := by
  refine ⟨?_, ?_, ?_, ?_⟩
  · intro resp hg hw
    simp [GetObjectHandler.handle, hg, hw, pyExcept, Exc.isClientError,
      Bind.bind, Except.bind, Functor.map, Except.map]
  · intro hr
    simp [PutObjectHandler.handle, hr, pyExcept, Exc.isClientError]
  · intro kind hg
    simp [GetObjectHandler.handle, hg, pyExcept, Exc.isClientError,
      Bind.bind, Except.bind, Functor.map, Except.map]
  · intro kind content hr hp
    simp [PutObjectHandler.handle, hr, hp, pyExcept, Except.map, Exc.isClientError]

/-- C9 amended witness: with a storage body available and a failing local
write, get-object propagates `OSError`; with a failing local read,
put-object propagates `OSError` and issues no storage call. -/
theorem local_io_vs_storage_failure_witness :
    (GetObjectHandler.handle okBodyClient failWrite []).1 = Except.error Exc.osError
    ∧ (PutObjectHandler.handle stubClient failRead []).1 = Except.error Exc.osError
    ∧ (PutObjectHandler.handle stubClient failRead []).2 = [] :=
  ⟨(local_io_vs_storage_failure okBodyClient failRead failWrite []).1
      { body := [1, 2, 3] } (by rfl) (by rfl),
   ((local_io_vs_storage_failure stubClient failRead stubWrite []).2.1 (by rfl)).1,
   ((local_io_vs_storage_failure stubClient failRead stubWrite []).2.1 (by rfl)).2⟩
